import Mathlib

/-!
Shallow embedding of the lab4-shaders rendering pipeline
(src/src/main.rs and src/src/shaders.rs) over the real numbers.

Rust `f32` arithmetic is idealised as exact real arithmetic; the Rust
library operations used by the source (`fract`, `clamp`, `powf`/`powi`
with integral exponents, `sqrt`, `sin`, `cos`, `asin`, `atan2`,
`normalize`, `dot`, saturating `as usize` casts, `try_inverse`) are
modelled by their mathematical counterparts below.  The `Color` type and
its operations live in `color.rs`, which is not part of the sources; they
are modelled from the spec where noted.
-/

noncomputable section

namespace Planets

/-- Rust `f32::trunc`: rounding toward zero. -/
def rtrunc (x : ℝ) : ℝ := if 0 ≤ x then (⌊x⌋ : ℝ) else (⌈x⌉ : ℝ)

/-- Rust `f32::fract`: `x - x.trunc()` (negative for negative inputs). -/
def rfract (x : ℝ) : ℝ := x - rtrunc x

/-- Rust `f32::clamp(lo, hi)`: `min (max x lo) hi`. -/
def rclamp (x lo hi : ℝ) : ℝ := min (max x lo) hi

/-- Rust `f32::atan2(self = y, other = x)`: the angle of the point `(x, y)`,
modelled by the argument of the complex number `x + y*i`. -/
def atan2 (y x : ℝ) : ℝ := Complex.arg ⟨x, y⟩

abbrev Vec2 : Type := Fin 2 → ℝ
abbrev Vec3 : Type := Fin 3 → ℝ
abbrev Vec4 : Type := Fin 4 → ℝ
abbrev Mat3 : Type := Matrix (Fin 3) (Fin 3) ℝ
abbrev Mat4 : Type := Matrix (Fin 4) (Fin 4) ℝ

/-- nalgebra `dot` on 3-vectors. -/
def dot3 (a b : Vec3) : ℝ := a 0 * b 0 + a 1 * b 1 + a 2 * b 2

/-- nalgebra `magnitude`/`norm` of a 3-vector. -/
def norm3 (v : Vec3) : ℝ := Real.sqrt (v 0 ^ 2 + v 1 ^ 2 + v 2 ^ 2)

/-- nalgebra `normalize` on 3-vectors. -/
def normalize3 (v : Vec3) : Vec3 := fun i => v i / norm3 v

/-- Modelled from the spec: `Color` lives in `color.rs`, which is not among
the sources.  Per section 3 of the spec it has three channels; channel values
are not clamped at intermediate steps, so the channels are modelled as reals
(saturation/wrapping only happens at packing time, outside the core). -/
structure Color where
  r : ℝ
  g : ℝ
  b : ℝ

/-- Modelled from the spec: `lerp(colorA, colorB, t)` is component-wise
linear interpolation, `t` unclamped by the primitive itself
(sections 4.4 and 8: `lerp(A, B, 0) = A` and `lerp(A, B, 1) = B` exactly). -/
def Color.lerp (a c : Color) (t : ℝ) : Color :=
  ⟨a.r + (c.r - a.r) * t, a.g + (c.g - a.g) * t, a.b + (c.b - a.b) * t⟩

/-- Modelled from the spec: `scale(color, factor)` is component-wise
multiplication with no clamp (section 4.4); this is the `Color * f32`
operator used throughout `shaders.rs`. -/
def Color.scale (c : Color) (f : ℝ) : Color := ⟨c.r * f, c.g * f, c.b * f⟩

/-- Modelled from the spec: component-wise color addition, the `Color + Color`
operator used by the earth and ring shaders for additive blending. -/
def Color.add (a c : Color) : Color := ⟨a.r + c.r, a.g + c.g, a.b + c.b⟩

/-- `Vertex` from `vertex.rs` (fields as used in `shaders.rs` lines 32-39). -/
structure Vertex where
  position : Vec3
  normal : Vec3
  tex_coords : Vec2
  color : Color
  transformed_position : Vec3
  transformed_normal : Vec3

/-- `Uniforms` from `main.rs` lines 21-28. -/
structure Uniforms where
  model_matrix : Mat4
  view_matrix : Mat4
  projection_matrix : Mat4
  viewport_matrix : Mat4
  time : ℕ
  debug_mode : ℕ

/-- `Fragments` from `fragments.rs` (fields as used in `main.rs` and
`shaders.rs`): screen position, depth, interpolated model-space position,
interpolated normal, and precomputed lighting intensity. -/
structure Fragments where
  position : Vec2
  depth : ℝ
  vertex_pos : Vec3
  normal : Vec3
  intensity : ℝ

/-- nalgebra `mat4_to_mat3`: the upper-left 3x3 block. -/
def mat4_to_mat3 (m : Mat4) : Mat3 :=
  Matrix.submatrix m Fin.castSucc Fin.castSucc

/-- nalgebra `try_inverse().unwrap_or(Mat3::identity())`: the inverse when the
matrix is nonsingular, the identity otherwise (`shaders.rs` line 28). -/
def tryInverse (a : Mat3) : Mat3 := if a.det = 0 then 1 else a⁻¹

/-- The clip-space position `projection * view * model * [position, 1]`
computed at `shaders.rs` lines 9-15. -/
def clipVec (v : Vertex) (u : Uniforms) : Vec4 :=
  (u.projection_matrix * u.view_matrix * u.model_matrix).mulVec
    ![v.position 0, v.position 1, v.position 2, 1]

/-- The NDC position of `shaders.rs` lines 17-23: each spatial component is
divided by `w` and the fourth component is set to `1.0`. -/
def ndcVec (v : Vertex) (u : Uniforms) : Vec4 :=
  ![clipVec v u 0 / clipVec v u 3, clipVec v u 1 / clipVec v u 3,
    clipVec v u 2 / clipVec v u 3, 1]

/-- The screen position of `shaders.rs` line 25. -/
def screenVec (v : Vertex) (u : Uniforms) : Vec4 :=
  u.viewport_matrix.mulVec (ndcVec v u)

/-- `vertex_shader` from `shaders.rs` lines 8-40. -/
def vertex_shader (v : Vertex) (u : Uniforms) : Vertex :=
  { position := v.position
    normal := v.normal
    tex_coords := v.tex_coords
    color := v.color
    transformed_position := ![screenVec v u 0, screenVec v u 1, screenVec v u 2]
    transformed_normal :=
      (tryInverse (mat4_to_mat3 u.model_matrix).transpose).mulVec v.normal }

/-- IEEE-style division with finiteness tracked: dividing by zero yields a
non-finite value, modelled as `none` (real division cannot represent the
infinities/NaN an `f32` division by zero produces). -/
def fdiv (a c : ℝ) : Option ℝ := if c = 0 then none else some (a / c)

/-- The perspective-divide step of `vertex_shader` (`shaders.rs` lines 17-23)
with finiteness tracked: `none` when the division by `w` is non-finite. -/
def perspectiveDivide (t : Vec4) : Option Vec4 :=
  match fdiv (t 0) (t 3), fdiv (t 1) (t 3), fdiv (t 2) (t 3) with
  | some x, some y, some z => some ![x, y, z, 1]
  | _, _, _ => none

/-- `ShaderType` from `shaders.rs` lines 42-52. -/
inductive ShaderType where
  | Sun
  | Earth
  | GasPlanet
  | RingPlanet
  | RockyPlanet
  | IcyPlanet
  | VolcanicPlanet
  | Moon
  | Ring

/-- The fracture factor of `icy_planet_shader` (`shaders.rs` lines 76-80). -/
def icy_fracture_factor (f : Fragments) : ℝ :=
  let stripe_width : ℝ := 0.15
  let combined_pos := f.vertex_pos 0 * 0.7 + f.vertex_pos 1 * 0.3
  let stripe_factor := |Real.sin ((combined_pos / stripe_width) * Real.pi)|
  (1 - stripe_factor) ^ 3

/-- The specular intensity of `icy_planet_shader` (`shaders.rs` lines 84-88). -/
def icy_specular_intensity (f : Fragments) : ℝ :=
  let normal := normalize3 f.normal
  let light_dir : Vec3 := ![0, 0, -1]
  let view_dir : Vec3 := fun i => -(normalize3 f.vertex_pos i)
  let reflect_dir :=
    normalize3 (fun i => 2 * dot3 light_dir normal * normal i - light_dir i)
  max (dot3 reflect_dir view_dir) 0 ^ 32

/-- `icy_planet_shader` from `shaders.rs` lines 71-99. -/
def icy_planet_shader (f : Fragments) (u : Uniforms) : Color :=
  let base_color : Color := ⟨173, 216, 230⟩
  let fracture_color : Color := ⟨255, 255, 255⟩
  let fractured_surface := base_color.lerp fracture_color (icy_fracture_factor f)
  let specular_color : Color := ⟨255, 255, 255⟩
  let reflected_surface :=
    fractured_surface.lerp specular_color (icy_specular_intensity f * 0.5)
  match u.debug_mode with
  | 1 => base_color.scale f.intensity
  | 2 => fracture_color.scale (icy_fracture_factor f)
  | 3 => specular_color.scale (icy_specular_intensity f)
  | _ => reflected_surface.scale f.intensity

/-- The lava factor of `volcanic_planet_shader` (`shaders.rs` lines 107-111). -/
def volcanic_lava_factor (f : Fragments) (u : Uniforms) : ℝ :=
  let lava_scale : ℝ := 15
  let noise_x := f.vertex_pos 0 * lava_scale + (u.time : ℝ) * 0.1
  let noise_y := f.vertex_pos 1 * lava_scale - (u.time : ℝ) * 0.1
  let lava_noise := rfract (|Real.sin noise_x * Real.cos noise_y| * 1.5)
  max (lava_noise - 0.7) 0 / 0.3

/-- The glow factor of `volcanic_planet_shader` (`shaders.rs` line 115). -/
def volcanic_glow_factor (f : Fragments) (u : Uniforms) : ℝ :=
  rclamp (volcanic_lava_factor f u ^ 2 * 0.8) 0 1

/-- The glow color of `volcanic_planet_shader` (`shaders.rs` line 116). -/
def volcanic_glow_color (f : Fragments) (u : Uniforms) : Color :=
  Color.lerp ⟨255, 100, 0⟩ ⟨255, 255, 50⟩ (volcanic_glow_factor f u)

/-- `volcanic_planet_shader` from `shaders.rs` lines 102-131. -/
def volcanic_planet_shader (f : Fragments) (u : Uniforms) : Color :=
  let rock_color : Color := ⟨50, 50, 50⟩
  let lava_color : Color := ⟨255, 100, 0⟩
  let lava_factor := volcanic_lava_factor f u
  let surface_color := rock_color.lerp lava_color lava_factor
  let glow_factor := volcanic_glow_factor f u
  let glow_color := volcanic_glow_color f u
  let final_color := surface_color.lerp glow_color glow_factor
  let lava_emission_factor : ℝ := 0.8
  let lava_emitted_color := lava_color.scale lava_emission_factor
  let emitted_color := final_color.lerp lava_emitted_color lava_factor
  match u.debug_mode with
  | 1 => rock_color.scale f.intensity
  | 2 => lava_color.scale lava_factor
  | 3 => glow_color.scale glow_factor
  | _ => emitted_color.scale f.intensity

/-- The radial four-band gradient of `sun_shader` (`shaders.rs` lines 136-159). -/
def sun_blended_color (f : Fragments) : Color :=
  let color1 : Color := ⟨255, 255, 255⟩
  let color2 : Color := ⟨255, 230, 28⟩
  let color3 : Color := ⟨255, 178, 51⟩
  let color4 : Color := ⟨204, 102, 0⟩
  let x := f.vertex_pos 0
  let y := f.vertex_pos 1
  let radius := Real.sqrt ((x - 0) ^ 2 + (y - 0) ^ 2)
  let t := rclamp radius 0 1
  if t < 0.33 then color1.lerp color2 (t / 0.33)
  else if t < 0.66 then color2.lerp color3 ((t - 0.33) / 0.33)
  else color3.lerp color4 ((t - 0.66) / 0.34)

/-- `sun_shader` from `shaders.rs` lines 134-172. -/
def sun_shader (f : Fragments) (u : Uniforms) : Color :=
  let blended_color := sun_blended_color f
  let emission_factor : ℝ := 1.5
  let emitted_color := blended_color.scale emission_factor
  match u.debug_mode with
  | 1 => blended_color.scale f.intensity
  | 2 => blended_color
  | 3 => Color.scale ⟨255, 255, 255⟩ emission_factor
  | _ => emitted_color.scale f.intensity

/-- The horizontal-band color of `gas_planet_shader` (`shaders.rs` lines 176-195). -/
def gas_band_color (f : Fragments) (u : Uniforms) : Color :=
  let band_color1 : Color := ⟨139, 69, 19⟩
  let band_color2 : Color := ⟨205, 133, 63⟩
  let band_color3 : Color := ⟨222, 184, 135⟩
  let band_scale : ℝ := 4
  let flow_speed : ℝ := 0.001
  let flow_offset := (u.time : ℝ) * flow_speed
  let y_position := f.vertex_pos 1 + flow_offset
  let band_factor := rfract (Real.sin (y_position * band_scale) * 0.5 + 0.5)
  if band_factor < 0.33 then band_color1.lerp band_color2 (band_factor / 0.33)
  else if band_factor < 0.66 then
    band_color2.lerp band_color3 ((band_factor - 0.33) / 0.33)
  else band_color3.lerp band_color1 ((band_factor - 0.66) / 0.34)

/-- The vortex intensity of `gas_planet_shader` (`shaders.rs` lines 198-203). -/
def gas_vortex_intensity (f : Fragments) : ℝ :=
  let vortex_center : Vec2 := ![-0.2, -0.2]
  let vortex_radius : ℝ := 0.3
  let distance_to_vortex :=
    Real.sqrt ((f.vertex_pos 0 - vortex_center 0) ^ 2 +
      (f.vertex_pos 1 - vortex_center 1) ^ 2)
  (max (vortex_radius - distance_to_vortex) 0 / vortex_radius) ^ 2

/-- `gas_planet_shader` from `shaders.rs` lines 175-213. -/
def gas_planet_shader (f : Fragments) (u : Uniforms) : Color :=
  let band_color := gas_band_color f u
  let vortex_color : Color := ⟨255, 69, 0⟩
  let final_color := band_color.lerp vortex_color (gas_vortex_intensity f)
  match u.debug_mode with
  | 1 => band_color.scale f.intensity
  | 2 => vortex_color.scale (gas_vortex_intensity f)
  | _ => final_color.scale f.intensity

/-- `rocky_planet_shader` from `shaders.rs` lines 216-244; it reads the
uniforms argument nowhere (the source binds it as `_uniforms`). -/
def rocky_planet_shader (f : Fragments) (_u : Uniforms) : Color :=
  let base_color : Color := ⟨139, 69, 19⟩
  let mid_color : Color := ⟨205, 92, 92⟩
  let highlight_color : Color := ⟨255, 160, 122⟩
  let rock_scale : ℝ := 10
  let detail_scale : ℝ := 0.3
  let x := f.vertex_pos 0
  let y := f.vertex_pos 1
  let randomness := Real.sin (x * 12.9898 + y * 78.233) * 43758.5453
  let random_factor := rfract randomness * detail_scale
  let noise :=
    |Real.sin ((x + random_factor) * rock_scale) *
      Real.cos ((y + random_factor) * rock_scale)|
  let rocky_surface :=
    if noise < 0.4 then base_color.lerp mid_color (noise / 0.4)
    else mid_color.lerp highlight_color ((noise - 0.4) / 0.6)
  rocky_surface.scale f.intensity

/-- The crater center/radius table of `moon_shader` (`shaders.rs` lines 274-289). -/
def crater_positions : List (ℝ × ℝ × ℝ) :=
  [(0.1, 0.2, 0.50), (-0.3, -0.1, 0.30), (0.4, -0.3, 0.2), (-0.1, 0.5, 0.40),
   (-0.5, -0.4, 0.25), (0.3, 0.4, 0.35), (0.1, 0.5, 0.20), (0.2, -0.1, 0.25),
   (0.0, -0.6, 0.28), (-0.4, 0.2, 0.22), (0.5, 0.0, 0.30), (-0.2, -0.5, 0.18),
   (0.35, 0.5, 0.24), (-0.45, -0.3, 0.20)]

/-- `moon_shader` from `shaders.rs` lines 247-308; it reads the uniforms
argument nowhere (the source binds it as `_uniforms`). -/
def moon_shader (f : Fragments) (_u : Uniforms) : Color :=
  let base_color : Color := ⟨169, 169, 169⟩
  let mid_color : Color := ⟨190, 190, 190⟩
  let highlight_color : Color := ⟨211, 211, 211⟩
  let rock_scale : ℝ := 12
  let detail_scale : ℝ := 0.25
  let x := f.vertex_pos 0
  let y := f.vertex_pos 1
  let randomness := Real.sin (x * 15.789 + y * 41.233) * 43758.5453
  let random_factor := rfract randomness * detail_scale
  let noise :=
    |Real.sin ((x + random_factor) * rock_scale) *
      Real.cos ((y + random_factor) * rock_scale)|
  let rocky_surface :=
    if noise < 0.5 then base_color.lerp mid_color (noise / 0.5)
    else mid_color.lerp highlight_color ((noise - 0.5) / 0.5)
  let crater_color : Color := ⟨100, 100, 100⟩
  let combined_crater_intensity :=
    crater_positions.foldl (fun acc c =>
      let distance :=
        Real.sqrt ((f.vertex_pos 0 - c.1) ^ 2 + (f.vertex_pos 1 - c.2.1) ^ 2)
      acc + (max (c.2.2 - distance) 0 / c.2.2) ^ 3) 0
  let final_surface := rocky_surface.lerp crater_color combined_crater_intensity
  final_surface.scale f.intensity

/-- `moon_position` from `shaders.rs` lines 311-314. -/
def moon_position (time radius : ℝ) : Vec3 :=
  let angle := time * 0.01
  ![radius * Real.cos angle, 0, radius * Real.sin angle]

/-- The horizontal-band color of `ring_planet_shader` (`shaders.rs` lines 318-336). -/
def ring_planet_band_color (f : Fragments) (u : Uniforms) : Color :=
  let band_color1 : Color := ⟨189, 155, 107⟩
  let band_color2 : Color := ⟨210, 180, 140⟩
  let band_color3 : Color := ⟨255, 222, 173⟩
  let band_scale : ℝ := 3.5
  let flow_speed : ℝ := 0.0008
  let flow_offset := (u.time : ℝ) * flow_speed
  let y_position := f.vertex_pos 1 + flow_offset
  let band_factor := rfract (Real.sin (y_position * band_scale) * 0.5 + 0.5)
  if band_factor < 0.33 then band_color1.lerp band_color2 (band_factor / 0.33)
  else if band_factor < 0.66 then
    band_color2.lerp band_color3 ((band_factor - 0.33) / 0.33)
  else band_color3.lerp band_color1 ((band_factor - 0.66) / 0.34)

/-- `ring_planet_shader` from `shaders.rs` lines 317-343; its two debug arms
are textually identical. -/
def ring_planet_shader (f : Fragments) (u : Uniforms) : Color :=
  let band_color := ring_planet_band_color f u
  match u.debug_mode with
  | 1 => band_color.scale f.intensity
  | _ => band_color.scale f.intensity

/-- The basic light intensity of `ring_shader` (`shaders.rs` lines 355-357). -/
def ring_light_intensity (f : Fragments) : ℝ :=
  let light_direction := normalize3 ![1, 1, 1]
  let normal := normalize3 f.vertex_pos
  rclamp (dot3 normal light_direction) 0.2 1

/-- `ring_shader` from `shaders.rs` lines 346-366. -/
def ring_shader (f : Fragments) (u : Uniforms) : Color :=
  let base_color : Color := ⟨255, 220, 80⟩
  let shadow_color : Color := ⟨150, 120, 60⟩
  let surface_color := base_color
  let light_intensity := ring_light_intensity f
  match u.debug_mode with
  | 1 => base_color.scale f.intensity
  | _ =>
    (surface_color.scale light_intensity).add
      (shadow_color.scale (1 - light_intensity))

/-- The moving cloud-circle centers of `earth_shader` (`shaders.rs`
lines 402-411); the Rust `% 1.0` is `rfract`. -/
def earth_cloud_positions (time : ℝ) : List (ℝ × ℝ) :=
  (List.range 6).map (fun i =>
    let angle := ((i : ℝ) / 6) * (2 * Real.pi) + time * 0.2
    let radius := 0.2 + (i : ℝ) * 0.05
    (rfract (Real.cos angle * radius + 0.5), rfract (Real.sin angle * radius + 0.5)))

/-- `earth_shader` from `shaders.rs` lines 369-436. -/
def earth_shader (f : Fragments) (u : Uniforms) : Color :=
  let x := f.vertex_pos 0
  let y := f.vertex_pos 1
  let z := f.vertex_pos 2
  let theta := Real.arcsin (y / 0.5)
  let phi := atan2 z x
  let uc := phi / (2 * Real.pi) + 0.5
  let vc := theta / Real.pi + 0.5
  let scale : ℝ := 7.2
  let noise := |Real.sin (uc * scale) * Real.cos (vc * scale)|
  let continent_threshold : ℝ := 0.55
  let land_color : Color := ⟨34, 139, 34⟩
  let ocean_color : Color := ⟨0, 105, 148⟩
  let base_color := if noise > continent_threshold then land_color else ocean_color
  let time := (u.time : ℝ) * 0.01
  let cloud_scale : ℝ := 8
  let cloud_intensity :=
    |Real.sin (uc * cloud_scale + time) * Real.cos (vc * cloud_scale + time)|
  let cloud_intensity := rclamp (cloud_intensity - 0.5) 0 1 * 0.5
  let cloud_color : Color := ⟨255, 255, 255⟩
  let cloud_radius : ℝ := 1.5
  let distance_from_center := Real.sqrt (uc ^ 2 + vc ^ 2)
  let is_in_atmosphere := distance_from_center < cloud_radius
  let cloud_positions := earth_cloud_positions time
  let cloud_color_final :=
    cloud_positions.foldl (fun acc cp =>
      let distance_to_cloud := Real.sqrt ((uc - cp.1) ^ 2 + (vc - cp.2) ^ 2)
      let circle_radius : ℝ := 0.075
      if distance_to_cloud < circle_radius then acc.lerp cloud_color 0.7 else acc)
      ⟨0, 0, 0⟩
  if is_in_atmosphere then
    (base_color.scale (1 - cloud_intensity)).add cloud_color_final
  else base_color

/-- `fragment_shader` from `shaders.rs` lines 54-66. -/
def fragment_shader (f : Fragments) (u : Uniforms) (current_shader : ShaderType) :
    Color :=
  match current_shader with
  | .Sun => sun_shader f u
  | .Earth => earth_shader f u
  | .GasPlanet => gas_planet_shader f u
  | .RingPlanet => ring_planet_shader f u
  | .RockyPlanet => rocky_planet_shader f u
  | .IcyPlanet => icy_planet_shader f u
  | .VolcanicPlanet => volcanic_planet_shader f u
  | .Moon => moon_shader f u
  | .Ring => ring_shader f u

/-- The uniform bundle with its debug mode replaced; all other fields are
kept (used to quantify over debug modes in the theorems below). -/
def setMode (u : Uniforms) (m : ℕ) : Uniforms := { u with debug_mode := m }

/-- `create_model_matrix` from `main.rs` lines 30-66. -/
def create_model_matrix (translation : Vec3) (scale : ℝ) (rotation : Vec3) : Mat4 :=
  let sin_x := Real.sin (rotation 0)
  let cos_x := Real.cos (rotation 0)
  let sin_y := Real.sin (rotation 1)
  let cos_y := Real.cos (rotation 1)
  let sin_z := Real.sin (rotation 2)
  let cos_z := Real.cos (rotation 2)
  let rotation_matrix_x : Mat4 :=
    !![1, 0, 0, 0; 0, cos_x, -sin_x, 0; 0, sin_x, cos_x, 0; 0, 0, 0, 1]
  let rotation_matrix_y : Mat4 :=
    !![cos_y, 0, sin_y, 0; 0, 1, 0, 0; -sin_y, 0, cos_y, 0; 0, 0, 0, 1]
  let rotation_matrix_z : Mat4 :=
    !![cos_z, -sin_z, 0, 0; sin_z, cos_z, 0, 0; 0, 0, 1, 0; 0, 0, 0, 1]
  let rotation_matrix := rotation_matrix_z * rotation_matrix_y * rotation_matrix_x
  let transform_matrix : Mat4 :=
    !![scale, 0, 0, translation 0; 0, scale, 0, translation 1;
       0, 0, scale, translation 2; 0, 0, 0, 1]
  transform_matrix * rotation_matrix

/-- `setup_scene` from `main.rs` lines 165-200: the geometric recipe
(translation, scale, rotation, eye, up) selected by the scene number. -/
def setup_scene (scene_number : ℕ) : Vec3 × ℝ × Vec3 × Vec3 × Vec3 :=
  match scene_number with
  | 1 => (![0, 0, 0], 1, ![0, 0, 0], ![0, 0, 5], ![0, 1, 0])
  | 2 => (![0, 0, 0], 1, ![0, 0, 0], ![0, 0, 5], ![0, 1, 0])
  | 3 => (![0, 0, 0], 1, ![0, 0, 0], ![0, 0, 5], ![0, 1, 0])
  | 4 => (![0, 0, 0], 1, ![0, 0, 0], ![0, 0, 5], ![0, 1, 0])
  | 5 => (![0, 0, 0], 1, ![0, 0, 0], ![0, 0, 5], ![0, 1, 0])
  | 6 => (![0, 0, 0], 1, ![0, 0, 0], ![0, 0, 5], ![0, 1, 0])
  | 7 => (![0, 0, 0], 1, ![0, 0, 0], ![0, 0, 5], ![0, 1, 0])
  | _ => (![0, 0, 0], 1, ![0, 0, 0], ![0, 0, 5], ![0, 1, 0])

/-- The shader-variant selection of `main.rs` lines 264-273. -/
def shader_for_scene (scene_number : ℕ) : ShaderType :=
  match scene_number with
  | 1 => .Sun
  | 2 => .Earth
  | 3 => .GasPlanet
  | 4 => .RingPlanet
  | 5 => .RockyPlanet
  | 6 => .IcyPlanet
  | 7 => .VolcanicPlanet
  | _ => .Sun

/-- The two meshes loaded by `main.rs` lines 231-235. -/
inductive MeshId where
  | sphere
  | ring

/-- One rasterize-and-shade pass: a call to `render` in `main.rs`, identified
by the mesh it draws, the uniform bundle, and the shader variant. -/
structure Pass where
  mesh : MeshId
  uniforms : Uniforms
  shader : ShaderType

/-- The derived uniform bundle built by `render_rings` (`main.rs` lines 92-99):
a fresh model matrix (scale `0.6`, no rotation, no translation) with every
other field copied from the frame's uniforms. -/
def ring_pass_uniforms (u : Uniforms) : Uniforms :=
  { model_matrix := create_model_matrix ![0, 0, 0] 0.6 ![0, 0, 0]
    view_matrix := u.view_matrix
    projection_matrix := u.projection_matrix
    viewport_matrix := u.viewport_matrix
    time := u.time
    debug_mode := u.debug_mode }

/-- The derived uniform bundle built by `render_scene5` for the moon
(`main.rs` lines 146-161). -/
def moon_pass_uniforms (u : Uniforms) : Uniforms :=
  { model_matrix :=
      create_model_matrix (moon_position (u.time : ℝ) 1.3) 0.5 ![0, 0, 0]
    view_matrix := u.view_matrix
    projection_matrix := u.projection_matrix
    viewport_matrix := u.viewport_matrix
    time := u.time
    debug_mode := u.debug_mode }

/-- The sequence of `render` calls one frame of `main.rs` issues
(lines 296-306): one unconditional pass over the sphere with the scene's
shader, then for scene 4 a second body pass plus the ring pass of
`render_rings`, and for scene 5 the two passes of `render_scene5`. -/
def frame_passes (scene_number : ℕ) (u : Uniforms) : List Pass :=
  [⟨.sphere, u, shader_for_scene scene_number⟩]
    ++ (if scene_number = 4 then
          [⟨.sphere, u, shader_for_scene scene_number⟩,
           ⟨.ring, ring_pass_uniforms u, .Ring⟩]
        else [])
    ++ (if scene_number = 5 then
          [⟨.sphere, u, .RockyPlanet⟩, ⟨.sphere, moon_pass_uniforms u, .Moon⟩]
        else [])

/-- The primitive-assembly stage of `render` (`main.rs` lines 112-122):
consecutive groups of three vertices, trailing leftovers dropped. -/
def assemble_triangles {α : Type} : List α → List (α × α × α)
  | a :: c :: d :: rest => (a, c, d) :: assemble_triangles rest
  | _ => []

/-- Rust `as usize` applied to an `f32` (`main.rs` lines 132-133): the cast
saturates, so negative (and NaN) inputs become `0`, positive inputs are
truncated toward zero, and values beyond `usize::MAX` become `usize::MAX`. -/
def floatToUsize (x : ℝ) : ℕ :=
  if x ≤ 0 then 0 else min ⌊x⌋.toNat (2 ^ 64 - 1)

/-- The per-fragment guard of the fragment-processing stage
(`main.rs` lines 131-141): the pixel is written exactly when the cast
coordinates pass the bounds check. -/
def fragmentWritten (fx fy : ℝ) (width height : ℕ) : Prop :=
  floatToUsize fx < width ∧ floatToUsize fy < height

/-- The framebuffer coordinates the fragment-processing stage writes to
(`main.rs` lines 132-139). -/
def writtenPixel (fx fy : ℝ) : ℕ × ℕ := (floatToUsize fx, floatToUsize fy)

/-- A concrete vertex at the object-space origin, for witnesses. -/
def v0 : Vertex :=
  { position := ![0, 0, 0]
    normal := ![1, 0, 0]
    tex_coords := ![0, 0]
    color := ⟨0, 0, 0⟩
    transformed_position := ![0, 0, 0]
    transformed_normal := ![0, 0, 0] }

/-- A concrete uniform bundle with identity matrices, for witnesses. -/
def u0 : Uniforms := ⟨1, 1, 1, 1, 0, 0⟩

/-- A concrete uniform bundle whose projection matrix is zero, making the
clip-space `w` vanish. -/
def uZero : Uniforms := ⟨1, 1, 0, 1, 0, 0⟩

/-- A concrete fragment at the object-space origin, for witnesses. -/
def f0 : Fragments :=
  { position := ![0, 0]
    depth := 0
    vertex_pos := ![0, 0, 0]
    normal := ![0, 0, 1]
    intensity := 1 }

/-- A concrete uniform bundle in debug mode 2, for witnesses. -/
def u9 : Uniforms := ⟨1, 1, 1, 1, 0, 2⟩

/-- C1: for every vertex and transform context whose clip-space w is nonzero,
the vertex shader's screen-space position is the viewport matrix applied to
the perspective-divided clip position (the divide happens before the viewport
transform), and its transformed normal is the transpose of the inverse of the
upper-left 3x3 of the model matrix applied to the object-space normal, with
the identity 3x3 as the fallback when that linear part is singular; the
embedding is a total function, mirroring the panic-free `unwrap_or` in the
source. -/
theorem vertex_shader_correct (v : Vertex) (u : Uniforms)
    (hw : clipVec v u 3 ≠ 0) :
    (vertex_shader v u).transformed_position =
      (fun i : Fin 3 =>
        u.viewport_matrix.mulVec ((clipVec v u 3)⁻¹ • clipVec v u) i.castSucc) ∧
    (vertex_shader v u).transformed_normal =
      (if (mat4_to_mat3 u.model_matrix).det = 0 then (1 : Mat3)
       else ((mat4_to_mat3 u.model_matrix)⁻¹).transpose).mulVec v.normal := by
  constructor
  · have hvec : (clipVec v u 3)⁻¹ • clipVec v u = ndcVec v u := by
      funext j
      fin_cases j
      · simp [ndcVec, Pi.smul_apply, smul_eq_mul, inv_mul_eq_div]
      · simp [ndcVec, Pi.smul_apply, smul_eq_mul, inv_mul_eq_div]
      · simp [ndcVec, Pi.smul_apply, smul_eq_mul, inv_mul_eq_div]
      · simp [ndcVec, Pi.smul_apply, smul_eq_mul, inv_mul_cancel₀ hw]
    simp only [hvec]
    funext i
    fin_cases i <;> rfl
  · show (tryInverse (mat4_to_mat3 u.model_matrix).transpose).mulVec v.normal = _
    rw [tryInverse, Matrix.det_transpose]
    by_cases hd : (mat4_to_mat3 u.model_matrix).det = 0
    · rw [if_pos hd, if_pos hd]
    · rw [if_neg hd, if_neg hd, ← Matrix.transpose_nonsing_inv]

/-- Witness for C1 at the origin vertex with identity matrices. -/
theorem vertex_shader_correct_witness :
    clipVec v0 u0 3 ≠ 0 ∧
    ((vertex_shader v0 u0).transformed_position =
      (fun i : Fin 3 =>
        u0.viewport_matrix.mulVec ((clipVec v0 u0 3)⁻¹ • clipVec v0 u0) i.castSucc) ∧
    (vertex_shader v0 u0).transformed_normal =
      (if (mat4_to_mat3 u0.model_matrix).det = 0 then (1 : Mat3)
       else ((mat4_to_mat3 u0.model_matrix)⁻¹).transpose).mulVec v0.normal) := by
  have hw : clipVec v0 u0 3 ≠ 0 := by
    simp [clipVec, v0, u0, Matrix.one_mulVec]
  exact ⟨hw, vertex_shader_correct v0 u0 hw⟩

/-- C2 counterexample: the perspective divide is not guarded.  With a zero
projection matrix the clip-space w is exactly zero and the divide produces a
non-finite value (modelled as `none`): the claim that a w at or near zero
cannot produce non-finite screen coordinates is false at this input. -/
theorem perspective_divide_unguarded :
    perspectiveDivide (clipVec v0 uZero) = none := by
  have hc : clipVec v0 uZero = 0 := by
    simp [clipVec, uZero, v0, Matrix.zero_mulVec]
  rw [hc]
  simp [perspectiveDivide, fdiv]

/-- C2 amended: the unguarded divide never crashes (the embedding is total)
and produces finite screen coordinates exactly matching the NDC position
whenever the clip-space w is nonzero; only w = 0 yields a non-finite result. -/
theorem perspective_divide_finite (v : Vertex) (u : Uniforms)
    (hw : clipVec v u 3 ≠ 0) :
    perspectiveDivide (clipVec v u) = some (ndcVec v u) := by
  simp [perspectiveDivide, fdiv, hw, ndcVec]

/-- Witness for the amended C2 at the origin vertex with identity matrices. -/
theorem perspective_divide_finite_witness :
    clipVec v0 u0 3 ≠ 0 ∧
    perspectiveDivide (clipVec v0 u0) = some (ndcVec v0 u0) := by
  have hw : clipVec v0 u0 3 ≠ 0 := by
    simp [clipVec, v0, u0, Matrix.one_mulVec]
  exact ⟨hw, perspective_divide_finite v0 u0 hw⟩

/-- The saturating cast lands strictly below `w` for nonnegative inputs
strictly below `w`. -/
theorem floatToUsize_lt {x : ℝ} {w : ℕ} (hx : 0 ≤ x) (hxw : x < w) :
    floatToUsize x < w := by
  rw [floatToUsize]
  split
  · have h0 : (0 : ℝ) < w := lt_of_le_of_lt hx hxw
    exact_mod_cast h0
  · rename_i hpos
    have hfl : ⌊x⌋ < (w : ℤ) := Int.floor_lt.mpr (by exact_mod_cast hxw)
    have hfl0 : 0 ≤ ⌊x⌋ := Int.floor_nonneg.mpr hx
    omega

/-- The saturating cast lands at or above `w` for inputs at or above `w`,
as long as `w` itself is below the saturation bound. -/
theorem floatToUsize_ge {x : ℝ} {w : ℕ} (hsat : w ≤ 2 ^ 64 - 1)
    (hwx : (w : ℝ) ≤ x) : w ≤ floatToUsize x := by
  rw [floatToUsize]
  split
  · rename_i hle
    have hw0 : (w : ℝ) ≤ 0 := le_trans hwx hle
    have : w = 0 := by exact_mod_cast le_antisymm (by exact_mod_cast hw0) (Nat.zero_le w)
    omega
  · have hfl : (w : ℤ) ≤ ⌊x⌋ := Int.le_floor.mpr (by exact_mod_cast hwx)
    omega

/-- C3 counterexample: a fragment at screen x = -1 lies outside the claimed
bounds [0, width) yet causes a pixel write, because the Rust `as usize` cast
saturates the negative coordinate to 0 before the bounds check. -/
theorem negative_fragment_written :
    fragmentWritten (-1) 0 800 600 ∧ (-1 : ℝ) < 0 := by
  refine ⟨⟨?_, ?_⟩, by norm_num⟩
  · rw [floatToUsize, if_pos (by norm_num)]; norm_num
  · rw [floatToUsize, if_pos le_rfl]; norm_num

/-- C3 amended: a fragment causes a pixel write iff its coordinates pass the
bounds check after the saturating float-to-usize cast.  Fragments with a
nonpositive coordinate are clamped to pixel column/row 0 and written (not
discarded) whenever the other coordinate is in bounds; the discard genuinely
happens on the high side; and fragments with both coordinates inside
[0, width) x [0, height) are written at their truncated coordinates. -/
theorem fragment_bounds_check_spec :
    (∀ (fx fy : ℝ) (width height : ℕ), fx ≤ 0 → 0 < width →
      floatToUsize fy < height →
      fragmentWritten fx fy width height ∧
        writtenPixel fx fy = (0, floatToUsize fy)) ∧
    (∀ (fx fy : ℝ) (width height : ℕ), width ≤ 2 ^ 64 - 1 →
      (width : ℝ) ≤ fx → ¬ fragmentWritten fx fy width height) ∧
    (∀ (fx fy : ℝ) (width height : ℕ), 0 ≤ fx → 0 ≤ fy →
      fx < width → fy < height → fragmentWritten fx fy width height) := by
  refine ⟨?_, ?_, ?_⟩
  · intro fx fy w h hfx hw hfy
    have hx0 : floatToUsize fx = 0 := if_pos hfx
    exact ⟨⟨by rw [hx0]; exact hw, hfy⟩, by rw [writtenPixel, hx0]⟩
  · intro fx fy w h hsat hwfx hcontra
    exact absurd hcontra.1 (Nat.not_lt.mpr (floatToUsize_ge hsat hwfx))
  · intro fx fy w h hx0 hy0 hxw hyh
    exact ⟨floatToUsize_lt hx0 hxw, floatToUsize_lt hy0 hyh⟩

/-- Witness for the amended C3: a fragment at (-2, 0) is written at pixel
(0, 0); a fragment at (900, 0) is discarded against width 800; a fragment
at (0, 0) is written. -/
theorem fragment_bounds_check_spec_witness :
    ((-2 : ℝ) ≤ 0 ∧ 0 < 800 ∧ floatToUsize (0 : ℝ) < 600 ∧
      fragmentWritten (-2) 0 800 600 ∧
      writtenPixel (-2) 0 = (0, floatToUsize (0 : ℝ))) ∧
    ((800 : ℕ) ≤ 2 ^ 64 - 1 ∧ (800 : ℝ) ≤ 900 ∧
      ¬ fragmentWritten 900 0 800 600) ∧
    ((0 : ℝ) ≤ 0 ∧ (0 : ℝ) < 800 ∧ fragmentWritten 0 0 800 600) := by
  have h0 : floatToUsize (0 : ℝ) < 600 := by
    rw [floatToUsize, if_pos le_rfl]; norm_num
  refine ⟨⟨by norm_num, by norm_num, h0, ?_, ?_⟩,
    ⟨by norm_num, by norm_num, ?_⟩, ⟨le_rfl, by norm_num, ?_⟩⟩
  · exact (fragment_bounds_check_spec.1 (-2) 0 800 600 (by norm_num) (by norm_num) h0).1
  · exact (fragment_bounds_check_spec.1 (-2) 0 800 600 (by norm_num) (by norm_num) h0).2
  · exact fragment_bounds_check_spec.2.1 900 0 800 600 (by norm_num) (by norm_num)
  · exact fragment_bounds_check_spec.2.2 0 0 800 600 le_rfl le_rfl (by norm_num) (by norm_num)

/-- The primitive assembler emits one triangle per full group of three. -/
theorem assemble_triangles_length {α : Type} : ∀ l : List α,
    (assemble_triangles l).length = l.length / 3
  | [] => by simp [assemble_triangles]
  | [_] => by simp [assemble_triangles]
  | [_, _] => by simp [assemble_triangles]
  | _ :: _ :: _ :: rest => by
      simp only [assemble_triangles, List.length_cons,
        assemble_triangles_length rest]
      omega

/-- The j-th assembled triangle is the vertices at positions 3j, 3j+1, 3j+2. -/
theorem assemble_triangles_get {α : Type} : ∀ (l : List α) (j : ℕ) (a c d : α),
    l[3 * j]? = some a → l[3 * j + 1]? = some c → l[3 * j + 2]? = some d →
    (assemble_triangles l)[j]? = some (a, c, d)
  | [], j, a, c, d => by intro h1 _ _; simp at h1
  | [_], j, a, c, d => by
      intro _ h2 _
      simp only [List.getElem?_cons_succ] at h2
      simp at h2
  | [_, _], j, a, c, d => by
      intro _ _ h3
      simp only [List.getElem?_cons_succ] at h3
      simp at h3
  | x :: y :: z :: rest, 0, a, c, d => by
      intro h1 h2 h3
      simp only [Nat.mul_zero, Nat.zero_add, List.getElem?_cons_zero,
        List.getElem?_cons_succ, Option.some.injEq] at h1 h2 h3
      subst h1; subst h2; subst h3
      simp [assemble_triangles]
  | x :: y :: z :: rest, j + 1, a, c, d => by
      intro h1 h2 h3
      have e1 : 3 * (j + 1) = 3 * j + 1 + 1 + 1 := by ring
      have e2 : 3 * (j + 1) + 1 = 3 * j + 1 + 1 + 1 + 1 := by ring
      have e3 : 3 * (j + 1) + 2 = 3 * j + 2 + 1 + 1 + 1 := by ring
      rw [e1, List.getElem?_cons_succ, List.getElem?_cons_succ,
        List.getElem?_cons_succ] at h1
      rw [e2, List.getElem?_cons_succ, List.getElem?_cons_succ,
        List.getElem?_cons_succ] at h2
      rw [e3, List.getElem?_cons_succ, List.getElem?_cons_succ,
        List.getElem?_cons_succ] at h3
      simp only [assemble_triangles, List.getElem?_cons_succ]
      exact assemble_triangles_get rest j a c d h1 h2 h3

/-- C4: the primitive-assembly stage partitions the transformed vertex list
into consecutive ordered groups of three (the j-th triangle holds vertices
3j, 3j+1, 3j+2), drops a trailing group of fewer than three vertices, and
emits exactly floor(n/3) triangles for an input of length n. -/
theorem primitive_assembly_spec {α : Type} (l : List α) :
    (assemble_triangles l).length = l.length / 3 ∧
    ∀ (j : ℕ) (a c d : α),
      l[3 * j]? = some a → l[3 * j + 1]? = some c → l[3 * j + 2]? = some d →
      (assemble_triangles l)[j]? = some (a, c, d) :=
  ⟨assemble_triangles_length l, fun j a c d => assemble_triangles_get l j a c d⟩

/-- Witness for C4 on a concrete 4-element list: one triangle is produced
from the first three elements and the trailing element is dropped. -/
theorem primitive_assembly_spec_witness :
    ([10, 20, 30, 40] : List ℕ)[3 * 0]? = some 10 ∧
    ([10, 20, 30, 40] : List ℕ)[3 * 0 + 1]? = some 20 ∧
    ([10, 20, 30, 40] : List ℕ)[3 * 0 + 2]? = some 30 ∧
    (assemble_triangles ([10, 20, 30, 40] : List ℕ))[0]? = some (10, 20, 30) ∧
    (assemble_triangles ([10, 20, 30, 40] : List ℕ)).length = 4 / 3 :=
  ⟨rfl, rfl, rfl,
    (primitive_assembly_spec [10, 20, 30, 40]).2 0 10 20 30 rfl rfl rfl,
    (primitive_assembly_spec [10, 20, 30, 40]).1⟩

/-- C5 counterexample: not every shader variant honors the debug-mode
switch.  Formalising the claim's minimal consequence - for every variant
there is some fragment and context where debug mode 1 (the isolated signal)
differs from debug mode 0 (the full composite) - its negation is provable:
the rocky-planet variant ignores the debug mode entirely, returning the same
color under every mode at every input. -/
theorem debug_mode_claim_refuted :
    ¬ ∀ s : ShaderType, ∃ (f : Fragments) (u : Uniforms),
        fragment_shader f (setMode u 1) s ≠ fragment_shader f (setMode u 0) s := by
  intro h
  obtain ⟨f, u, hne⟩ := h .RockyPlanet
  exact hne rfl

/-- C5 amended: only the sun, icy-planet and volcanic-planet variants switch
on all four debug modes with distinct arm expressions; the gas-planet variant
handles modes 1 and 2 while mode 3 falls through to the full composite; the
ring variant handles mode 1; and the earth, rocky-planet, moon and
ring-planet variants return the same color for every debug mode (the first
three have no debug switch at all, and the ring-planet variant's two arms
are identical). -/
theorem debug_mode_per_variant :
    (∀ f u m, earth_shader f (setMode u m) = earth_shader f (setMode u 0)) ∧
    (∀ f u m,
      rocky_planet_shader f (setMode u m) = rocky_planet_shader f (setMode u 0)) ∧
    (∀ f u m, moon_shader f (setMode u m) = moon_shader f (setMode u 0)) ∧
    (∀ f u m,
      ring_planet_shader f (setMode u m) = ring_planet_shader f (setMode u 0)) ∧
    (∀ f u,
      gas_planet_shader f (setMode u 3) = gas_planet_shader f (setMode u 0)) ∧
    (∀ f u, gas_planet_shader f (setMode u 1) =
      (gas_band_color f (setMode u 1)).scale f.intensity) ∧
    (∀ f u, gas_planet_shader f (setMode u 2) =
      Color.scale ⟨255, 69, 0⟩ (gas_vortex_intensity f)) ∧
    (∀ f u, sun_shader f (setMode u 1) = (sun_blended_color f).scale f.intensity) ∧
    (∀ f u, sun_shader f (setMode u 2) = sun_blended_color f) ∧
    (∀ f u, sun_shader f (setMode u 3) = Color.scale ⟨255, 255, 255⟩ 1.5) ∧
    (∀ f u, icy_planet_shader f (setMode u 1) =
      Color.scale ⟨173, 216, 230⟩ f.intensity) ∧
    (∀ f u, icy_planet_shader f (setMode u 2) =
      Color.scale ⟨255, 255, 255⟩ (icy_fracture_factor f)) ∧
    (∀ f u, icy_planet_shader f (setMode u 3) =
      Color.scale ⟨255, 255, 255⟩ (icy_specular_intensity f)) ∧
    (∀ f u, volcanic_planet_shader f (setMode u 1) =
      Color.scale ⟨50, 50, 50⟩ f.intensity) ∧
    (∀ f u, volcanic_planet_shader f (setMode u 2) =
      Color.scale ⟨255, 100, 0⟩ (volcanic_lava_factor f (setMode u 2))) ∧
    (∀ f u, volcanic_planet_shader f (setMode u 3) =
      (volcanic_glow_color f (setMode u 3)).scale
        (volcanic_glow_factor f (setMode u 3))) ∧
    (∀ f u, ring_shader f (setMode u 1) = Color.scale ⟨255, 220, 80⟩ f.intensity) := by
  refine ⟨fun f u m => rfl, fun f u m => rfl, fun f u m => rfl, fun f u m => ?_,
    fun f u => rfl, fun f u => rfl, fun f u => rfl, fun f u => rfl, fun f u => rfl,
    fun f u => rfl, fun f u => rfl, fun f u => rfl, fun f u => rfl, fun f u => rfl,
    fun f u => rfl, fun f u => rfl, fun f u => rfl⟩
  rcases m with _ | _ | m <;> rfl

/-- C6: the moon position is the circular XZ orbit
(radius * cos(time * 0.01), 0, radius * sin(time * 0.01)); at time 0 it is
exactly (radius, 0, 0), and at a quarter period (time * 0.01 = pi/2) it is
exactly (0, 0, radius). -/
theorem moon_position_spec (t r : ℝ) :
    moon_position t r = ![r * Real.cos (t * 0.01), 0, r * Real.sin (t * 0.01)] ∧
    moon_position 0 r = ![r, 0, 0] ∧
    (t * 0.01 = Real.pi / 2 → moon_position t r = ![0, 0, r]) := by
  refine ⟨rfl, ?_, ?_⟩
  · funext i
    fin_cases i <;> simp [moon_position]
  · intro h
    funext i
    fin_cases i <;> simp [moon_position, h]

/-- Witness for C6 at the quarter period t = 50 * pi with radius 1. -/
theorem moon_position_spec_witness :
    50 * Real.pi * 0.01 = Real.pi / 2 ∧
    moon_position (50 * Real.pi) 1 = ![0, 0, 1] := by
  have h : 50 * Real.pi * 0.01 = Real.pi / 2 := by ring
  exact ⟨h, (moon_position_spec (50 * Real.pi) 1).2.2 h⟩

/-- With zero rotation and zero translation the model matrix is the pure
scaling matrix. -/
theorem create_model_matrix_no_rotation (s : ℝ) :
    create_model_matrix ![0, 0, 0] s ![0, 0, 0] =
      !![s, 0, 0, 0; 0, s, 0, 0; 0, 0, s, 0; 0, 0, 0, 1] := by
  ext i j
  fin_cases i <;> fin_cases j <;>
    simp [create_model_matrix, Matrix.mul_apply, Fin.sum_univ_four,
      Real.sin_zero, Real.cos_zero]

/-- C7: rendering scene 4 issues exactly two body passes over the sphere
mesh with the ring-planet variant followed by one pass over the ring mesh
with the Ring variant, whose uniforms replace the model matrix by the pure
scale-0.6 matrix (no rotation, no translation) and share the frame's view,
projection and viewport matrices, time, and debug mode. -/
theorem scene4_passes_spec (u : Uniforms) :
    frame_passes 4 u =
      [⟨.sphere, u, .RingPlanet⟩, ⟨.sphere, u, .RingPlanet⟩,
       ⟨.ring, ring_pass_uniforms u, .Ring⟩] ∧
    (ring_pass_uniforms u).model_matrix =
      !![0.6, 0, 0, 0; 0, 0.6, 0, 0; 0, 0, 0.6, 0; 0, 0, 0, 1] ∧
    (ring_pass_uniforms u).view_matrix = u.view_matrix ∧
    (ring_pass_uniforms u).projection_matrix = u.projection_matrix ∧
    (ring_pass_uniforms u).viewport_matrix = u.viewport_matrix ∧
    (ring_pass_uniforms u).time = u.time ∧
    (ring_pass_uniforms u).debug_mode = u.debug_mode :=
  ⟨rfl, create_model_matrix_no_rotation 0.6, rfl, rfl, rfl, rfl, rfl⟩

/-- C8: `setup_scene` returns the identical geometric recipe - translation
(0,0,0), scale 1, rotation (0,0,0), eye (0,0,5), up (0,1,0) - for every
scene index, including indices outside 1-7 (which take the default branch),
so the scene index affects only the selected shader variant. -/
theorem setup_scene_constant :
    (∀ n : ℕ, setup_scene n = (![0, 0, 0], 1, ![0, 0, 0], ![0, 0, 5], ![0, 1, 0])) ∧
    ∀ m n : ℕ, setup_scene m = setup_scene n := by
  have h : ∀ n : ℕ,
      setup_scene n = (![0, 0, 0], 1, ![0, 0, 0], ![0, 0, 5], ![0, 1, 0]) := by
    intro n
    rcases n with _ | _ | _ | _ | _ | _ | _ | _ | n <;> rfl
  exact ⟨h, fun m n => (h m).trans (h n).symm⟩

/-- C9: a fragment whose model-space position has x = 0 and y = 0 shades to
exactly (255, 255, 255) - the innermost gradient color `color1` - under the
sun shader in debug mode 2, because the radius 0 falls in the first band and
the lerp by factor 0 returns its first argument. -/
theorem sun_debug2_origin (f : Fragments) (u : Uniforms)
    (hx : f.vertex_pos 0 = 0) (hy : f.vertex_pos 1 = 0)
    (hd : u.debug_mode = 2) :
    sun_shader f u = ⟨255, 255, 255⟩ := by
  obtain ⟨mm, vm, pm, vpm, t, d⟩ := u
  simp only at hd
  subst hd
  show sun_blended_color f = _
  norm_num [sun_blended_color, hx, hy, rclamp, Real.sqrt_zero, Color.lerp]

/-- Witness for C9 at a concrete origin fragment in debug mode 2. -/
theorem sun_debug2_origin_witness :
    f0.vertex_pos 0 = 0 ∧ f0.vertex_pos 1 = 0 ∧ u9.debug_mode = 2 ∧
    sun_shader f0 u9 = ⟨255, 255, 255⟩ :=
  ⟨rfl, rfl, rfl, sun_debug2_origin f0 u9 rfl rfl rfl⟩

/-- C10: the rocky-planet and moon shader variants are independent of the
transform context (any two uniform bundles, hence any time counter and any
debug mode, yield the same color) and depend only on the fragment's
interpolated model-space position and lighting intensity. -/
theorem rocky_moon_uniform_independent (u u2 : Uniforms) (sp sp2 : Vec2)
    (dp dp2 : ℝ) (p nrm nrm2 : Vec3) (inten : ℝ) :
    rocky_planet_shader ⟨sp, dp, p, nrm, inten⟩ u =
      rocky_planet_shader ⟨sp2, dp2, p, nrm2, inten⟩ u2 ∧
    moon_shader ⟨sp, dp, p, nrm, inten⟩ u =
      moon_shader ⟨sp2, dp2, p, nrm2, inten⟩ u2 :=
  ⟨rfl, rfl⟩

end Planets

end

